import Mathlib

/-!
Verification of `fix_transcripts.py` (smol-podcaster repository).

The program is a transcript corrector: it builds a replacement mapping
(`create_fix_mapping`, lines 15-46), applies every rule to the text
(`fix_transcript`, lines 48-64) — using a literal substring replacement
when the incorrect key contains a space, and a regex word-boundary
substitution otherwise — and wraps the transform in file I/O
(`process_file`, lines 66-98).

Texts are embedded as `List Char`; mappings as association lists in
insertion order (Python dicts preserve insertion order).  The regex
engine's word character class is embedded for the ASCII range
(`[A-Za-z0-9_]`); every character appearing in the program's own data is
ASCII except the middle dot in the replacement value `DALL·E`, which is
not a word character in the source's regex engine either.

Only the key is passed through `re.escape`; the correct value reaches
`re.sub` raw and is processed as a replacement template, which is
compiled eagerly and can fail (for example on `\d`) even when the
pattern matches nowhere.  The embedding therefore has two layers: the
total functions (`reSubWord`, `applyRule`, `fix_transcript`) insert an
already-rendered replacement literally and are exact whenever no
space-free key's value contains a backslash, and the fallible layer
(`parseTemplate`, `reSubWordE`, `applyRuleE`, `fix_transcriptE`) adds
the template compilation and its error path.
-/

/-- Word character as used by the regex word-boundary class `\b`:
letters, digits, or underscore. -/
def isWordChar (c : Char) : Bool := c.isAlphanum || c == '_'

/-- Word-character test lifted to an optional character; positions outside
the text count as non-word. -/
def isWordOpt : Option Char → Bool
  | none => false
  | some c => isWordChar c

/-- Word boundary between two adjacent (optional) characters: exactly one
side is a word character, as the regex `\b` assertion requires. -/
def isBoundary (a b : Option Char) : Bool := isWordOpt a != isWordOpt b

/-- Fuel-indexed scan of Python `str.replace` for a non-empty pattern:
walk left to right, replace each non-overlapping occurrence, continue
after the replaced span.  Fuel equal to the text length always suffices
since every step consumes at least one character. -/
def replaceAllFuel (pat rep : List Char) : Nat → List Char → List Char
  | _, [] => []
  | 0, s => s
  | fuel + 1, c :: rest =>
    if pat.isPrefixOf (c :: rest) then
      rep ++ replaceAllFuel pat rep fuel ((c :: rest).drop pat.length)
    else
      c :: replaceAllFuel pat rep fuel rest

/-- Python `str.replace(pat, rep)` (used at src/fix_transcripts.py:58):
global, left-to-right, non-overlapping literal substring replacement.
An empty pattern inserts the replacement at every position, matching
Python's behaviour for `s.replace("", rep)`. -/
def replaceAll (pat rep s : List Char) : List Char :=
  if pat = [] then rep ++ (s.map fun c => c :: rep).flatten
  else replaceAllFuel pat rep s.length s

/-- Does the word-boundary pattern match the text starting at the head of
`c :: rest`, given the character just before this position?  This is the
match condition of the regex at src/fix_transcripts.py:61, namely
a literal occurrence of the (non-empty) escaped pattern flanked by the
two boundary assertions. -/
def wbMatchAt (pat : List Char) (prev : Option Char) (c : Char) (rest : List Char) : Bool :=
  pat.isPrefixOf (c :: rest) && isBoundary prev (some c) &&
    isBoundary pat.getLast? ((c :: rest).drop pat.length).head?

/-- Fuel-indexed scan of `re.sub` for a non-empty word-boundary-wrapped
literal pattern: leftmost non-overlapping matches, continuing after each
match with the pattern's last character as the new previous character. -/
def wbSubFuel (pat rep : List Char) : Option Char → Nat → List Char → List Char
  | _, _, [] => []
  | _, 0, s => s
  | prev, fuel + 1, c :: rest =>
    if wbMatchAt pat prev c rest then
      rep ++ wbSubFuel pat rep pat.getLast? fuel ((c :: rest).drop pat.length)
    else
      c :: wbSubFuel pat rep (some c) fuel rest

/-- Scan of `re.sub` for the degenerate empty key: the compiled pattern is
the bare zero-width assertion, so the (already-rendered) replacement is
inserted at every word-boundary position of the text. -/
def wbSubEmpty (rep : List Char) : Option Char → List Char → List Char
  | prev, [] => if isBoundary prev none then rep else []
  | prev, c :: rest =>
    (if isBoundary prev (some c) then rep ++ [c] else [c]) ++ wbSubEmpty rep (some c) rest

/-- The scanning part of the regex substitution at
src/fix_transcripts.py:61-62: substitute every word-bounded occurrence
of the literal key by an already-rendered replacement.  `re.escape`
makes the key literal, so the pattern is the key flanked by boundary
assertions.  The `rep` argument is the rendered replacement template;
`reSubWordE` below adds the template processing the source's `re.sub`
performs on the raw correct value. -/
def reSubWord (pat rep s : List Char) : List Char :=
  if pat = [] then wbSubEmpty rep none s
  else wbSubFuel pat rep none s.length s

/-- Token of a parsed `re.sub` replacement template: a literal character,
or a reference to group 0 (the whole match).  The program's patterns
have no capture groups, so group 0 is the only group that can be
referenced without an error. -/
inductive TemplTok where
  | lit : Char → TemplTok
  | group0 : TemplTok
deriving DecidableEq

/-- Known control escapes of a replacement template
(`\a \b \f \n \r \t \v`). -/
def ctrlEscape : Char → Option Char
  | 'a' => some (Char.ofNat 7)
  | 'b' => some (Char.ofNat 8)
  | 'f' => some (Char.ofNat 12)
  | 'n' => some (Char.ofNat 10)
  | 'r' => some (Char.ofNat 13)
  | 't' => some (Char.ofNat 9)
  | 'v' => some (Char.ofNat 11)
  | _ => none

/-- Octal digit test used by template octal escapes. -/
def isOctDigit (c : Char) : Bool := '0' ≤ c && c ≤ '7'

/-- Numeric value of a digit character. -/
def octVal (c : Char) : Nat := c.toNat - 48

/-- Decimal value of a digit string. -/
def decDigits (l : List Char) : Nat := l.foldl (fun a c => 10 * a + (c.toNat - 48)) 0

/-- ASCII identifier test for `\g<name>` group names (the source uses the
runtime's identifier test; the names the program can send it are ASCII). -/
def isIdentifier : List Char → Bool
  | [] => false
  | c :: rest => (c.isAlpha || c = '_') && rest.all fun d => d.isAlphanum || d = '_'

/-- Prepend tokens to a template-parse result, propagating errors. -/
def consToks (ts : List TemplTok) : Except String (List TemplTok) → Except String (List TemplTok)
  | .error e => .error e
  | .ok more => .ok (ts ++ more)

/-- Message of an up-to-two-digit group reference `\1`..`\99`: the
program's patterns have no capture groups, so every such reference is
invalid. -/
def groupRefMsg (e : Char) (rest2 : List Char) : String :=
  "invalid group reference " ++ toString (decDigits (e :: (rest2.take 1).takeWhile Char.isDigit))

/-- Parser of an `re.sub` replacement template, modelled on the runtime's
template compiler for a pattern with no capture groups and traced
against it case by case: ordinary characters pass through; `\\` and the
control escapes translate; `\g<0>` (any all-digit name of value zero)
references the whole match; any other group reference is invalid here;
`\0` starts an octal escape of up to three octal digits, as does a
three-octal-digit `\ooo` (range-checked against 0o377); an unknown
escape of an ASCII letter is an error, raised when the template is
compiled, before any match is attempted; a backslash before any other
character is kept together with that character; a trailing backslash is
an error.  Error descriptions are abbreviated: the source's messages
additionally carry position indices and quoting. -/
def parseTemplateAux : Nat → List Char → Except String (List TemplTok)
  | _, [] => .ok []
  | 0, _ => .ok []
  | fuel + 1, c :: rest =>
    if c = '\\' then
      match rest with
      | [] => .error "bad escape (end of pattern)"
      | e :: rest2 =>
        if e = '\\' then consToks [.lit '\\'] (parseTemplateAux fuel rest2)
        else
          match ctrlEscape e with
          | some ch => consToks [.lit ch] (parseTemplateAux fuel rest2)
          | none =>
            if e = 'g' then
              match rest2 with
              | '<' :: r3 =>
                match r3.dropWhile (fun d => d ≠ '>') with
                | [] => .error "missing >, unterminated name"
                | _ :: r4 =>
                  match r3.takeWhile (fun d => d ≠ '>') with
                  | [] => .error "missing group name"
                  | name =>
                    if name.all Char.isDigit then
                      if decDigits name = 0 then consToks [.group0] (parseTemplateAux fuel r4)
                      else .error ("invalid group reference " ++ toString (decDigits name))
                    else if isIdentifier name then
                      .error ("unknown group name " ++ String.mk name)
                    else .error ("bad character in group name " ++ String.mk name)
              | _ => .error "missing <"
            else if e = '0' then
              consToks
                [.lit (Char.ofNat
                  (((rest2.take 2).takeWhile isOctDigit).foldl (fun a d => 8 * a + octVal d) 0))]
                (parseTemplateAux fuel (rest2.drop ((rest2.take 2).takeWhile isOctDigit).length))
            else if e.isDigit then
              match rest2 with
              | d2 :: d3 :: r4 =>
                if isOctDigit e && isOctDigit d2 && isOctDigit d3 then
                  if 64 * octVal e + 8 * octVal d2 + octVal d3 > 255 then
                    .error "octal escape value outside of range 0-0o377"
                  else
                    consToks [.lit (Char.ofNat (64 * octVal e + 8 * octVal d2 + octVal d3))]
                      (parseTemplateAux fuel r4)
                else .error (groupRefMsg e rest2)
              | _ => .error (groupRefMsg e rest2)
            else if e.isAlpha then .error ("bad escape \\" ++ String.mk [e])
            else consToks [.lit '\\', .lit e] (parseTemplateAux fuel rest2)
    else consToks [.lit c] (parseTemplateAux fuel rest)

/-- Template compilation of a raw correct value, as `re.sub` performs it
eagerly — before scanning, so an invalid template raises even when the
pattern matches nowhere in the text.  Fuel equal to the template length
suffices since every step consumes at least one character. -/
def parseTemplate (rep : List Char) : Except String (List TemplTok) :=
  parseTemplateAux rep.length rep

/-- Render a parsed template for the program's patterns: group 0 is the
whole match, which for the literal pattern `\b`key`\b` is always the key
itself (and the empty string for the empty key), so the rendering is one
constant string. -/
def renderTemplate (pat : List Char) (ts : List TemplTok) : List Char :=
  (ts.map fun t =>
    match t with
    | .lit c => [c]
    | .group0 => pat).flatten

/-- The full regex substitution of src/fix_transcripts.py:61-62: compile
the raw correct value as a replacement template (which can fail with an
`re.error`-style description, even when nothing matches), then
substitute every word-bounded occurrence of the key by the rendered
template. -/
def reSubWordE (pat rep s : List Char) : Except String (List Char) :=
  match parseTemplate rep with
  | .error er => .error er
  | .ok ts => .ok (reSubWord pat (renderTemplate pat ts) s)

/-- Does the pattern occur as a literal substring of the text
(Python `pat in s`)? -/
def substrOccurs (pat : List Char) : List Char → Bool
  | [] => pat.isEmpty
  | c :: rest => pat.isPrefixOf (c :: rest) || substrOccurs pat rest

/-- Does the word-boundary-wrapped (non-empty) pattern match anywhere in
the text, given the character before the current position? -/
def wbOccursAux (pat : List Char) : Option Char → List Char → Bool
  | _, [] => false
  | prev, c :: rest => wbMatchAt pat prev c rest || wbOccursAux pat (some c) rest

/-- Does the bare word-boundary assertion match anywhere in the text? -/
def wbOccursEmpty : Option Char → List Char → Bool
  | prev, [] => isBoundary prev none
  | prev, c :: rest => isBoundary prev (some c) || wbOccursEmpty (some c) rest

/-- A rule's incorrect key matches somewhere in the text, under the
branch the engine would use for that key: plain substring occurrence for
keys containing a space, word-bounded occurrence otherwise. -/
def ruleMatches (wrong s : List Char) : Bool :=
  if ' ' ∈ wrong then substrOccurs wrong s
  else if wrong = [] then wbOccursEmpty none s
  else wbOccursAux wrong none s

/-- A replacement mapping: an association list of (incorrect, correct)
pairs in insertion order. -/
abbrev Mapping := List (List Char × List Char)

/-- One iteration of the loop at src/fix_transcripts.py:55-62 with the
correct value inserted literally: the substring branch when the key
contains a space character, the word-boundary branch otherwise.  This
agrees with the program exactly when the value of a space-free key
contains no backslash (a backslash-free value is a template that renders
to itself); `applyRuleE` below is the full fallible model. -/
def applyRule (text : List Char) (rule : List Char × List Char) : List Char :=
  if ' ' ∈ rule.1 then replaceAll rule.1 rule.2 text
  else reSubWord rule.1 rule.2 text

/-- One iteration of the loop at src/fix_transcripts.py:55-62 in full:
the substring branch (`str.replace`, no template processing, total) when
the key contains a space character; otherwise `re.sub`, whose raw
replacement value is compiled as a template and can fail. -/
def applyRuleE (text : List Char) (rule : List Char × List Char) : Except String (List Char) :=
  if ' ' ∈ rule.1 then .ok (replaceAll rule.1 rule.2 text)
  else reSubWordE rule.1 rule.2 text

/-- The substitution engine `fix_transcript` of src/fix_transcripts.py:48-64
on template-literal values: fold every rule over the text in insertion
order, each rule operating on the output of the previous one.  Exact
whenever no space-free key's value contains a backslash;
`fix_transcriptE` below is the full fallible model. -/
def fix_transcript (content : List Char) (mapping : Mapping) : List Char :=
  mapping.foldl applyRule content

/-- The substitution engine of src/fix_transcripts.py:48-64 in full: the
rules are applied in insertion order until one fails (an invalid
replacement template raises `re.error` out of `fix_transcript`,
abandoning the remaining rules). -/
def fix_transcriptE : List Char → Mapping → Except String (List Char)
  | content, [] => .ok content
  | content, r :: rest =>
    match applyRuleE content r with
    | .error e => .error e
    | .ok t => fix_transcriptE t rest

/-- The built-in default table of src/fix_transcripts.py:20-41, in source
order. -/
def default_mapping : Mapping :=
  [("noose".data, "Nous".data),
   ("Dali".data, "DALL·E".data),
   ("DeepSeq".data, "DeepSeek".data),
   (" lama ".data, " Llama ".data),
   ("Lama".data, "Llama".data),
   ("LAMA".data, "Llama".data),
   ("Lama 1".data, "Llama 1".data),
   ("OMO2".data, "OLMo 2".data),
   ("OMO1".data, "OLMo 1".data),
   ("ALMO".data, "OLMo".data),
   ("Allmo".data, "OLMo".data),
   ("Swyggs".data, "Swyx".data),
   ("Grenenfeld".data, "Groeneveld".data),
   ("Kyle Lowe".data, "Kyle Lo".data),
   ("Luca Soldini".data, "Luca Soldaini".data)]

/-- First value bound to a key in an association list (Python dict
lookup; keys are unique in every mapping the program builds). -/
def lookupKey : Mapping → List Char → Option (List Char)
  | [], _ => none
  | (k2, v) :: rest, k => if k2 = k then some v else lookupKey rest k

/-- Python `dict.update`: keys already present keep their position and
take the update's value; new keys are appended in the update's order. -/
def dictUpdate (base upd : Mapping) : Mapping :=
  (base.map fun kv =>
    match lookupKey upd kv.1 with
    | some v => (kv.1, v)
    | none => kv) ++
  upd.filter fun kv => (lookupKey base kv.1).isNone

/-- The mapping builder `create_fix_mapping` of src/fix_transcripts.py:15-46:
the default table, updated by the custom mapping when one is supplied
(an empty custom dict is falsy in Python and leaves the defaults as is). -/
def create_fix_mapping (custom : Option Mapping) : Mapping :=
  match custom with
  | none => default_mapping
  | some [] => default_mapping
  | some (kv :: rest) => dictUpdate default_mapping (kv :: rest)

/-- Outcome of a file operation, as observed by the exception handlers of
src/fix_transcripts.py:93-98: success, a `FileNotFoundError` (which
carries a description the handler never prints), or any other error
carrying its description. -/
inductive OpResult (α : Type) where
  | ok : α → OpResult α
  | notFound : String → OpResult α
  | otherError : String → OpResult α

/-- The orchestration `process_file` of src/fix_transcripts.py:66-98,
with the two file operations abstracted as outcomes.  Returns the exit
code and the lines printed.  Everything inside the `try` block shares
the two handlers: a `FileNotFoundError` — whether from the read or from
the write — prints the missing-file diagnostic naming the input file and
dropping the error's own description; any other failure — a read or
write error, or an `re.error` escaping the transform — prints a
diagnostic carrying the error's description. -/
def process_file (readRes : OpResult (List Char)) (writeRes : List Char → OpResult Unit)
    (input_file : String) (output_file : Option String) (mapping : Option Mapping) :
    Nat × List String :=
  match readRes with
  | .notFound _ => (1, ["Error: Could not find file " ++ input_file])
  | .otherError d => (1, ["Error processing file: " ++ d])
  | .ok content =>
    match fix_transcriptE content (create_fix_mapping mapping) with
    | .error e => (1, ["Error processing file: " ++ e])
    | .ok fixed_content =>
      match writeRes fixed_content with
      | .notFound _ => (1, ["Error: Could not find file " ++ input_file])
      | .otherError d => (1, ["Error processing file: " ++ d])
      | .ok _ =>
        (0, ["Successfully processed " ++ input_file] ++
          (match output_file with
           | some o => ["Output written to " ++ o]
           | none => []))

/-! Helper lemmas about association-list lookup and `dictUpdate`. -/

theorem lookupKey_append (l1 l2 : Mapping) (k : List Char) :
    lookupKey (l1 ++ l2) k =
      match lookupKey l1 k with
      | some v => some v
      | none => lookupKey l2 k := by
  induction l1 with
  | nil => simp [lookupKey]
  | cons kv rest ih =>
    obtain ⟨k2, v⟩ := kv
    by_cases h : k2 = k
    · simp [lookupKey, h]
    · simp [lookupKey, h, ih]

theorem lookupKey_update_map (base upd : Mapping) (k : List Char) :
    lookupKey (base.map fun kv =>
      match lookupKey upd kv.1 with
      | some v => (kv.1, v)
      | none => kv) k =
      match lookupKey base k with
      | none => none
      | some v =>
        some (match lookupKey upd k with
              | some w => w
              | none => v) := by
  induction base with
  | nil => simp [lookupKey]
  | cons kv rest ih =>
    obtain ⟨k2, v2⟩ := kv
    by_cases h : k2 = k
    · subst h
      cases hu : lookupKey upd k2 <;> simp [lookupKey, hu]
    · cases hu : lookupKey upd k2 <;> simp [lookupKey, hu, h, ih]

theorem lookupKey_filter_of_not_base (base : Mapping) (k : List Char)
    (hb : lookupKey base k = none) (l : Mapping) :
    lookupKey (l.filter fun kv => (lookupKey base kv.1).isNone) k = lookupKey l k := by
  induction l with
  | nil => simp
  | cons kv rest ih =>
    obtain ⟨k2, v2⟩ := kv
    by_cases h : k2 = k
    · subst h
      simp [List.filter_cons, lookupKey, hb]
    · cases hp : (lookupKey base k2).isNone <;>
        simp [List.filter_cons, hp, lookupKey, h, ih]

theorem lookupKey_dictUpdate (base upd : Mapping) (k : List Char) :
    lookupKey (dictUpdate base upd) k =
      match lookupKey upd k with
      | some v => some v
      | none => lookupKey base k := by
  unfold dictUpdate
  rw [lookupKey_append, lookupKey_update_map]
  cases hb : lookupKey base k with
  | some v => cases hu : lookupKey upd k <;> simp
  | none =>
    rw [lookupKey_filter_of_not_base base k hb]
    cases hu : lookupKey upd k <;> simp

/-! Helper lemmas: a rule whose pattern matches nowhere leaves the text
unchanged. -/

theorem replaceAllFuel_of_no_occurs (pat rep : List Char) (fuel : Nat) (s : List Char)
    (h : substrOccurs pat s = false) : replaceAllFuel pat rep fuel s = s := by
  induction fuel generalizing s with
  | zero => cases s <;> simp [replaceAllFuel]
  | succ n ih =>
    cases s with
    | nil => simp [replaceAllFuel]
    | cons c rest =>
      simp [substrOccurs] at h
      simp [replaceAllFuel, h.1, ih rest h.2]

theorem wbSubFuel_of_no_occurs (pat rep : List Char) (fuel : Nat) (prev : Option Char)
    (s : List Char) (h : wbOccursAux pat prev s = false) :
    wbSubFuel pat rep prev fuel s = s := by
  induction fuel generalizing prev s with
  | zero => cases s <;> simp [wbSubFuel]
  | succ n ih =>
    cases s with
    | nil => simp [wbSubFuel]
    | cons c rest =>
      simp [wbOccursAux] at h
      simp [wbSubFuel, h.1, ih (some c) rest h.2]

theorem wbSubEmpty_of_no_occurs (rep : List Char) (prev : Option Char) (s : List Char)
    (h : wbOccursEmpty prev s = false) : wbSubEmpty rep prev s = s := by
  induction s generalizing prev with
  | nil =>
    simp [wbOccursEmpty] at h
    simp [wbSubEmpty, h]
  | cons c rest ih =>
    simp [wbOccursEmpty] at h
    simp [wbSubEmpty, h.1, ih (some c) h.2]

theorem applyRule_of_no_match (s w c : List Char) (h : ruleMatches w s = false) :
    applyRule s (w, c) = s := by
  unfold ruleMatches at h
  unfold applyRule
  by_cases hs : (' ' : Char) ∈ w
  · have hw : ¬ w = [] := by
      intro e
      subst e
      simp at hs
    rw [if_pos hs] at h ⊢
    rw [replaceAll, if_neg hw]
    exact replaceAllFuel_of_no_occurs w c s.length s h
  · rw [if_neg hs] at h ⊢
    by_cases he : w = []
    · subst he
      rw [if_pos rfl] at h
      rw [reSubWord, if_pos rfl]
      exact wbSubEmpty_of_no_occurs c none s h
    · rw [if_neg he] at h
      rw [reSubWord, if_neg he]
      exact wbSubFuel_of_no_occurs w c s.length none s h

theorem fix_transcript_of_no_match (M : Mapping) (s : List Char)
    (h : (M.all fun r => !ruleMatches r.1 s) = true) : fix_transcript s M = s := by
  induction M with
  | nil => rfl
  | cons r M ih =>
    simp only [List.all_cons, Bool.and_eq_true, Bool.not_eq_true'] at h
    show List.foldl applyRule s (r :: M) = s
    rw [List.foldl_cons]
    obtain ⟨w, c⟩ := r
    rw [applyRule_of_no_match s w c h.1]
    exact ih (by simpa using h.2)

/-! Helper lemmas: a backslash-free value is a replacement template that
renders to itself, so on such values the fallible transform agrees with
the literal one. -/

theorem renderTemplate_map_lit (pat s : List Char) :
    renderTemplate pat (s.map TemplTok.lit) = s := by
  induction s with
  | nil => rfl
  | cons c rest ih =>
    simp only [renderTemplate, List.map_map] at ih ⊢
    simp [ih]

theorem parseTemplateAux_no_backslash (s : List Char) : ∀ fuel, s.length ≤ fuel →
    '\\' ∉ s → parseTemplateAux fuel s = .ok (s.map TemplTok.lit) := by
  induction s with
  | nil =>
    intro fuel _ _
    cases fuel <;> simp [parseTemplateAux]
  | cons c rest ih =>
    intro fuel hlen hmem
    cases fuel with
    | zero => simp at hlen
    | succ n =>
      have hc : ¬ c = '\\' := fun e => hmem (e ▸ List.mem_cons_self c rest)
      have hrest : '\\' ∉ rest := fun h => hmem (List.mem_cons_of_mem c h)
      have hlen2 : rest.length ≤ n := Nat.le_of_succ_le_succ (by simpa using hlen)
      simp [parseTemplateAux, hc, ih n hlen2 hrest, consToks]

theorem parseTemplate_no_backslash (rep : List Char) (h : '\\' ∉ rep) :
    parseTemplate rep = .ok (rep.map TemplTok.lit) :=
  parseTemplateAux_no_backslash rep rep.length le_rfl h

theorem reSubWordE_no_backslash (pat rep s : List Char) (h : '\\' ∉ rep) :
    reSubWordE pat rep s = .ok (reSubWord pat rep s) := by
  rw [reSubWordE, parseTemplate_no_backslash rep h]
  simp [renderTemplate_map_lit]

theorem applyRuleE_eq_ok (t : List Char) (r : List Char × List Char)
    (h : (' ' : Char) ∈ r.1 ∨ '\\' ∉ r.2) : applyRuleE t r = .ok (applyRule t r) := by
  by_cases hs : (' ' : Char) ∈ r.1
  · rw [applyRuleE, if_pos hs, applyRule, if_pos hs]
  · have hb : '\\' ∉ r.2 := h.resolve_left hs
    rw [applyRuleE, if_neg hs, applyRule, if_neg hs]
    exact reSubWordE_no_backslash r.1 r.2 t hb

theorem fix_transcriptE_no_backslash (T : List Char) (M : Mapping)
    (h : (M.all fun r => decide ((' ' : Char) ∈ r.1) || !(decide ('\\' ∈ r.2))) = true) :
    fix_transcriptE T M = .ok (fix_transcript T M) := by
  induction M generalizing T with
  | nil => rfl
  | cons r rest ih =>
    simp only [List.all_cons, Bool.and_eq_true] at h
    have hr : (' ' : Char) ∈ r.1 ∨ '\\' ∉ r.2 := by
      have h1 := h.1
      simp only [Bool.or_eq_true, decide_eq_true_eq, Bool.not_eq_true',
        decide_eq_false_iff_not] at h1
      exact h1
    show fix_transcriptE T (r :: rest) = .ok (List.foldl applyRule T (r :: rest))
    rw [fix_transcriptE, applyRuleE_eq_ok T r hr, List.foldl_cons]
    exact ih (applyRule T r) h.2

/-! Claim theorems. -/

/-- C1, counterexample: the claim says any whitespace in the incorrect
key selects the literal substring branch, but the code tests only for
the space character.  A key containing a tab and no space takes the
word-boundary branch, so the occurrence of the key inside the larger
token `xa<tab>bx` is not replaced, while a literal substring replacement
would have produced `xXx`. -/
theorem branch_any_whitespace_cex :
    fix_transcript "xa\tbx".data [("a\tb".data, "X".data)] = "xa\tbx".data ∧
    replaceAll "a\tb".data "X".data "xa\tbx".data = "xXx".data ∧
    fix_transcript "xa\tbx".data [("a\tb".data, "X".data)] ≠
      replaceAll "a\tb".data "X".data "xa\tbx".data := by
  refine ⟨by decide, by decide, by decide⟩

/-- C1, amended: a rule whose incorrect key contains at least one space
character (U+0020) is applied as a global literal substring replacement,
and the word-boundary branch is taken exactly for keys containing no
space character, even when they contain other whitespace such as tabs. -/
theorem fix_transcript_branch_on_space (w c T : List Char) :
    ((' ' : Char) ∈ w → fix_transcript T [(w, c)] = replaceAll w c T) ∧
    ((' ' : Char) ∉ w → fix_transcript T [(w, c)] = reSubWord w c T) := by
  constructor <;> intro h <;>
    simp [fix_transcript, applyRule, h]

/-- C1, witness for the amended theorem at a concrete rule and text. -/
theorem fix_transcript_branch_on_space_witness :
    ((' ' : Char) ∈ "a b".data) ∧
    fix_transcript "xa bx".data [("a b".data, "Y".data)] =
      replaceAll "a b".data "Y".data "xa bx".data :=
  ⟨by decide, (fix_transcript_branch_on_space "a b".data "Y".data "xa bx".data).1 (by decide)⟩

/-- C2: the end-to-end scenario with the unmodified default mapping
produces exactly the expected corrected sentence. -/
theorem fix_transcript_default_end_to_end :
    fix_transcript "noose released Dali and OMO2 today. Swyggs interviewed Grenenfeld.".data
        (create_fix_mapping none) =
      "Nous released DALL·E and OLMo 2 today. Swyx interviewed Groeneveld.".data := by
  decide

/-- C3, counterexample: the single rule replacing the phrase `a b` by `a`
satisfies the claim's disjointness hypothesis (no correct value is a
match for any rule's incorrect pattern, the rule's own included), yet a
second application still changes the text: `a b b` becomes `a b`, which
becomes `a`. -/
theorem fix_transcript_idem_cex :
    ([(("a b").data, "a".data)].all fun r1 =>
      [(("a b").data, "a".data)].all fun r2 => !ruleMatches r2.1 r1.2) = true ∧
    fix_transcript (fix_transcript "a b b".data [(("a b").data, "a".data)])
        [(("a b").data, "a".data)] ≠
      fix_transcript "a b b".data [(("a b").data, "a".data)] := by
  refine ⟨by decide, by decide⟩

/-- C3, amended: a second application changes nothing provided no rule's
incorrect pattern still matches the once-transformed text (the original
hypothesis about correct values is not enough, because a replacement can
combine with surrounding text into a fresh match of the same rule). -/
theorem fix_transcript_idem_of_no_match (T : List Char) (M : Mapping)
    (h : (M.all fun r => !ruleMatches r.1 (fix_transcript T M)) = true) :
    fix_transcript (fix_transcript T M) M = fix_transcript T M :=
  fix_transcript_of_no_match M (fix_transcript T M) h

/-- C3, witness for the amended theorem at a concrete text and mapping. -/
theorem fix_transcript_idem_of_no_match_witness :
    ([("a".data, "b".data)].all fun r =>
      !ruleMatches r.1 (fix_transcript "zz".data [("a".data, "b".data)])) = true ∧
    fix_transcript (fix_transcript "zz".data [("a".data, "b".data)])
        [("a".data, "b".data)] =
      fix_transcript "zz".data [("a".data, "b".data)] :=
  ⟨by decide, fix_transcript_idem_of_no_match "zz".data [("a".data, "b".data)] (by decide)⟩

/-- C4: the word-boundary branch is boundary precise: `Lama` is not
replaced inside the larger token `Lama2`, and is replaced when it stands
as a whole word. -/
theorem fix_transcript_word_boundary_precise :
    fix_transcript "Lama2 is great".data [("Lama".data, "Llama".data)] =
      "Lama2 is great".data ∧
    fix_transcript "Lama is great".data [("Lama".data, "Llama".data)] =
      "Llama is great".data := by
  refine ⟨by decide, by decide⟩

/-- C5, counterexample: replacing the phrase `Kyle Lowe` inside
`Kyle Lowexpert` consumes the whole nine-character key, leaving
`Kyle Loxpert`, not the claimed `Kyle Loexpert`. -/
theorem fix_transcript_phrase_substring_cex :
    fix_transcript "The Kyle Lowexpert spoke".data
        [("Kyle Lowe".data, "Kyle Lo".data)] ≠
      "The Kyle Loexpert spoke".data := by
  decide

/-- C5, amended: phrase keys match as plain substrings with no boundary
protection; the example text becomes `The Kyle Loxpert spoke`. -/
theorem fix_transcript_phrase_substring :
    fix_transcript "The Kyle Lowexpert spoke".data
        [("Kyle Lowe".data, "Kyle Lo".data)] =
      "The Kyle Loxpert spoke".data := by
  decide

/-- C6: the override merges on top of the defaults with override
precedence — every key of the override resolves to the override's value
(in particular `Lama` overridden to `Nova`), and every other key keeps
its default value. -/
theorem create_fix_mapping_override (O : Mapping) (k : List Char) :
    ((lookupKey O k).isSome = true →
      lookupKey (create_fix_mapping (some O)) k = lookupKey O k) ∧
    (lookupKey O k = none →
      lookupKey (create_fix_mapping (some O)) k = lookupKey default_mapping k) ∧
    lookupKey (create_fix_mapping (some [("Lama".data, "Nova".data)])) "Lama".data =
      some "Nova".data := by
  refine ⟨?_, ?_, by decide⟩ <;> intro h
  · cases O with
    | nil => simp [lookupKey] at h
    | cons kv rest =>
      rw [create_fix_mapping, lookupKey_dictUpdate]
      cases hu : lookupKey (kv :: rest) k with
      | some v => simp
      | none => rw [hu] at h; simp at h
  · cases O with
    | nil => rfl
    | cons kv rest =>
      rw [create_fix_mapping, lookupKey_dictUpdate, h]

/-- C6, witness at the override of the claim's example. -/
theorem create_fix_mapping_override_witness :
    (lookupKey [("Lama".data, "Nova".data)] "Lama".data).isSome = true ∧
    lookupKey (create_fix_mapping (some [("Lama".data, "Nova".data)])) "Lama".data =
      lookupKey [("Lama".data, "Nova".data)] "Lama".data :=
  ⟨by decide, (create_fix_mapping_override [("Lama".data, "Nova".data)] "Lama".data).1
    (by decide)⟩

/-- C7: rule application is sequential in list order: splitting the rule
sequence anywhere, applying the first part and then the second is the
same as applying the whole sequence. -/
theorem fix_transcript_append (T : List Char) (M1 M2 : Mapping) :
    fix_transcript T (M1 ++ M2) = fix_transcript (fix_transcript T M1) M2 := by
  simp [fix_transcript, List.foldl_append]

/-- C8, counterexample: `re.escape` protects only the key, never the
value, so the value of a space-free key is compiled as a replacement
template: the rule `a -> \d` makes the transform fail with a bad-escape
error on a text it does not even match, and with it `process_file`
reaches the error branch although both file operations succeed. -/
theorem fix_transcript_total_cex :
    fix_transcriptE "no match here".data [("a".data, "\\d".data)] =
      .error "bad escape \\d" ∧
    process_file (.ok "no match here".data) (fun _ => .ok ()) "in.md" none
        (some [("a".data, "\\d".data)]) =
      (1, ["Error processing file: bad escape \\d"]) :=
  ⟨rfl, rfl⟩

/-- C8, amended: `create_fix_mapping` is total, and the transform is
total — and inserts values literally — for every text and every mapping
in which each rule either has a space-containing key (literal
`str.replace`, no template processing) or a value free of backslashes;
for such mappings the program exits 0 whenever both file operations
succeed, so outside the transform the error branch is reachable only
from the file operations. -/
theorem fix_transcript_total_amended (T : List Char) (M : Mapping) (custom : Option Mapping)
    (inf : String) (outf : Option String) (content : List Char)
    (hM : (M.all fun r => decide ((' ' : Char) ∈ r.1) || !(decide ('\\' ∈ r.2))) = true)
    (hc : ((create_fix_mapping custom).all fun r =>
      decide ((' ' : Char) ∈ r.1) || !(decide ('\\' ∈ r.2))) = true) :
    fix_transcriptE T M = .ok (fix_transcript T M) ∧
    (∃ m, create_fix_mapping custom = m) ∧
    (process_file (.ok content) (fun _ => .ok ()) inf outf custom).1 = 0 := by
  refine ⟨fix_transcriptE_no_backslash T M hM, ⟨_, rfl⟩, ?_⟩
  simp [process_file, fix_transcriptE_no_backslash content (create_fix_mapping custom) hc]

/-- C8, witness for the amended theorem: the default mapping is inside
the backslash-free domain. -/
theorem fix_transcript_total_amended_witness :
    (default_mapping.all fun r =>
      decide ((' ' : Char) ∈ r.1) || !(decide ('\\' ∈ r.2))) = true ∧
    fix_transcriptE "noose".data default_mapping =
      .ok (fix_transcript "noose".data default_mapping) :=
  ⟨by decide,
    (fix_transcript_total_amended "noose".data default_mapping none "in.md" none []
      (by decide) (by decide)).1⟩

/-- C9, counterexample: with the input read and the write both
succeeding, a custom rule whose value is `\d` still exits 1 with an
error-processing diagnostic (the transform raised inside the `try`); and
a write-time file-not-found error prints the missing-file diagnostic
naming the input file, no printed line containing the underlying error's
description. -/
theorem process_file_exit_cex :
    process_file (.ok "x".data) (fun _ => .ok ()) "in.md" none
        (some [("a".data, "\\d".data)]) =
      (1, ["Error processing file: bad escape \\d"]) ∧
    process_file (.ok "x".data)
        (fun _ => .notFound "No such file or directory: out/o.md") "in.md"
        (some "out/o.md") none =
      (1, ["Error: Could not find file in.md"]) ∧
    (["Error: Could not find file in.md"].all fun m =>
      !substrOccurs "No such file or directory: out/o.md".data m.data) = true := by
  refine ⟨rfl, rfl, by decide⟩

/-- C9, amended: `process_file` exits 0 with the confirmation message
when the read succeeds, the mapping is within the backslash-free domain,
and the write succeeds; a missing input file exits 1 with the distinct
missing-file diagnostic; any other read error, and a transform failure
(invalid replacement template), exit 1 with a diagnostic carrying the
error's description; a write error exits 1 — with the description for
generic errors, but a write-time file-not-found error prints the
missing-file diagnostic naming the input file, without the underlying
description. -/
theorem process_file_exit_amended (inf : String) (outf : Option String)
    (custom : Option Mapping) (content t : List Char)
    (wr : List Char → OpResult Unit) (d e : String) :
    (((create_fix_mapping custom).all fun r =>
        decide ((' ' : Char) ∈ r.1) || !(decide ('\\' ∈ r.2))) = true →
      process_file (.ok content) (fun _ => .ok ()) inf outf custom =
        (0, ["Successfully processed " ++ inf] ++
          (match outf with
           | some o => ["Output written to " ++ o]
           | none => []))) ∧
    process_file (.notFound d) wr inf outf custom =
      (1, ["Error: Could not find file " ++ inf]) ∧
    process_file (.otherError d) wr inf outf custom =
      (1, ["Error processing file: " ++ d]) ∧
    (fix_transcriptE content (create_fix_mapping custom) = .error e →
      process_file (.ok content) wr inf outf custom =
        (1, ["Error processing file: " ++ e])) ∧
    (fix_transcriptE content (create_fix_mapping custom) = .ok t →
      process_file (.ok content) (fun _ => .otherError d) inf outf custom =
        (1, ["Error processing file: " ++ d])) ∧
    (fix_transcriptE content (create_fix_mapping custom) = .ok t →
      process_file (.ok content) (fun _ => .notFound d) inf outf custom =
        (1, ["Error: Could not find file " ++ inf])) := by
  refine ⟨fun h => ?_, rfl, rfl, fun h => ?_, fun h => ?_, fun h => ?_⟩
  · simp [process_file, fix_transcriptE_no_backslash content (create_fix_mapping custom) h]
  · simp [process_file, h]
  · simp [process_file, h]
  · simp [process_file, h]

/-- C9, witness for the amended theorem: the default mapping, a
successful read of the example text and a successful write exit 0 with
the confirmation line. -/
theorem process_file_exit_amended_witness :
    (((create_fix_mapping none).all fun r =>
        decide ((' ' : Char) ∈ r.1) || !(decide ('\\' ∈ r.2))) = true) ∧
    process_file (.ok "noose".data) (fun _ => .ok ()) "in.md" none none =
      (0, ["Successfully processed " ++ "in.md"] ++
        (match (none : Option String) with
         | some o => ["Output written to " ++ o]
         | none => [])) :=
  ⟨by decide,
    (process_file_exit_amended "in.md" none none "noose".data [] (fun _ => .ok ())
      "x" "x").1 (by decide)⟩

/-- C10: an empty incorrect key is not a no-op: it takes the
word-boundary branch, where the compiled pattern degenerates to the bare
boundary assertion and the correct value is inserted at every
word-boundary position — on `ab` the result is `XabX`, and on `a b` the
insertion happens at all four boundaries. -/
theorem fix_transcript_empty_key :
    (∀ T rep : List Char, fix_transcript T [([], rep)] = wbSubEmpty rep none T) ∧
    fix_transcript "ab".data [(([] : List Char), "X".data)] = "XabX".data ∧
    fix_transcript "ab".data [(([] : List Char), "X".data)] ≠ "ab".data ∧
    fix_transcript "a b".data [(([] : List Char), "X".data)] = "XaX XbX".data := by
  refine ⟨fun T rep => ?_, by decide, by decide, by decide⟩
  simp [fix_transcript, applyRule, reSubWord]
